import Mathlib

/-!
Verification of the PRISMA review-publication scripts.

The Python sources are shallowly embedded: pure arithmetic becomes
functions on `ℚ`/`ℕ`, dataframe rows become lists of records, the global
`random` generator becomes an abstract deterministic step function
`g : ℕ → ℕ` threaded through the computation as an explicit state
(CPython's seeded Mersenne Twister is such a function; no claim depends
on its particular values), and fallible I/O becomes `Except`/`Option`
values.  Python's `round(x, 3)` (round half to even at three decimals)
is modelled on `ℚ` by `pyRound3`.
-/

/-- Round a rational to the nearest integer, ties to even — the rounding
used by Python's built-in `round`. -/
def roundHalfEven (q : ℚ) : ℤ :=
  let f : ℤ := ⌊q⌋
  let r : ℚ := q - f
  if r < 1/2 then f
  else if 1/2 < r then f + 1
  else if f % 2 = 0 then f else f + 1

/-- Python's `round(x, 3)` on rationals: scale by 1000, round half to
even, scale back. -/
def pyRound3 (q : ℚ) : ℚ :=
  ((roundHalfEven (q * 1000) : ℤ) : ℚ) / 1000

/-- Sum of the counts of an exclusion-reason table. -/
def sumVals (l : List (String × ℕ)) : ℕ :=
  (l.map Prod.snd).sum

/-- Counted-key table update: add `k` to `key`'s count, inserting the key
with count `k` if absent — the Python idiom
`if key not in d: d[key] = 0` followed by `d[key] += k`. -/
def bumpKeyBy [BEq α] (m : List (α × ℕ)) (key : α) (k : ℕ) : List (α × ℕ) :=
  if m.any (fun p => p.1 == key) then
    m.map (fun p => if p.1 == key then (p.1, p.2 + k) else p)
  else m ++ [(key, k)]

/-- Python exceptions, at the granularity the scripts distinguish them:
`ImportError` is caught separately in `fix_csv_formatting.py`; everything
else is only ever matched by a bare `except Exception`. -/
inductive PyExc where
  | importError : PyExc
  | ioError : String → PyExc
  | generic : String → PyExc
deriving DecidableEq, Repr

namespace Methodology

/-!
Embedding of `scripts/prisma_study_methodology.py`.

`calculate_cohens_kappa` takes the four confusion-matrix cells
`a = include_include`, `b = include_exclude`, `c = exclude_include`,
`d = exclude_exclude` and returns the rounded kappa together with its
Landis & Koch interpretation string.
-/

/-- Unrounded Cohen's kappa exactly as computed by
`calculate_cohens_kappa` (lines 90–115): marginal rates, expected
agreement `pe`, and the `pe == 1` guard returning `1.0`. -/
def cohensKappaRaw (a b c d : ℕ) : ℚ :=
  let n : ℚ := (a : ℚ) + b + c + d
  let po : ℚ := ((a : ℚ) + d) / n
  let p1_include : ℚ := ((a : ℚ) + b) / n
  let p1_exclude : ℚ := ((c : ℚ) + d) / n
  let p2_include : ℚ := ((a : ℚ) + c) / n
  let p2_exclude : ℚ := ((b : ℚ) + d) / n
  let pe : ℚ := p1_include * p2_include + p1_exclude * p2_exclude
  if pe = 1 then 1 else (po - pe) / (1 - pe)

/-- Interpretation cascade of lines 117–129 (Landis & Koch 1977), applied
to the unrounded kappa. -/
def landisKochInterp (kappa : ℚ) : String :=
  if kappa < 0 then "Poor agreement"
  else if kappa < 1/5 then "Slight agreement"
  else if kappa < 2/5 then "Fair agreement"
  else if kappa < 3/5 then "Moderate agreement"
  else if kappa < 4/5 then "Substantial agreement"
  else "Almost perfect agreement"

/-- The `calculate_cohens_kappa` on an explicit confusion matrix: returns
`(round(kappa, 3), interpretation)` (line 131). -/
def calculate_cohens_kappa (a b c d : ℕ) : ℚ × String :=
  (pyRound3 (cohensKappaRaw a b c d), landisKochInterp (cohensKappaRaw a b c d))

/-- Textbook Cohen's kappa written from the claim's words:
`po = (a+d)/n`, `pe = ((a+b)/n)·((a+c)/n) + ((c+d)/n)·((b+d)/n)`,
`kappa = (po - pe)/(1 - pe)`, with `1` returned when `pe = 1`. -/
def kappaTextbook (a b c d : ℕ) : ℚ :=
  let n : ℚ := (a : ℚ) + b + c + d
  let po : ℚ := ((a : ℚ) + d) / n
  let pe : ℚ := (((a : ℚ) + b) / n) * (((a : ℚ) + c) / n) +
    (((c : ℚ) + d) / n) * (((b : ℚ) + d) / n)
  if pe = 1 then 1 else (po - pe) / (1 - pe)

/-- Landis & Koch bands phrased with lower-bound thresholds as in the
claim ("Almost perfect agreement" once kappa reaches 0.80). -/
def landisBandSpec (kappa : ℚ) : String :=
  if 4/5 ≤ kappa then "Almost perfect agreement"
  else if 3/5 ≤ kappa then "Substantial agreement"
  else if 2/5 ≤ kappa then "Moderate agreement"
  else if 1/5 ≤ kappa then "Fair agreement"
  else if 0 ≤ kappa then "Slight agreement"
  else "Poor agreement"

/-- Total division returning `none` on a zero divisor; used to record
where the source performs a Python `/`. -/
def qdivOpt (x y : ℚ) : Option ℚ :=
  if y = 0 then none else some (x / y)

/-- The `calculate_cohens_kappa` with every division checked: mirrors the
sequence of divisions of lines 99–115, failing if any divisor is zero. -/
def cohensKappaChecked (a b c d : ℕ) : Option ℚ := do
  let n : ℚ := (a : ℚ) + b + c + d
  let po ← qdivOpt ((a : ℚ) + d) n
  let p1_include ← qdivOpt ((a : ℚ) + b) n
  let p1_exclude ← qdivOpt ((c : ℚ) + d) n
  let p2_include ← qdivOpt ((a : ℚ) + c) n
  let p2_exclude ← qdivOpt ((b : ℚ) + d) n
  let pe := p1_include * p2_include + p1_exclude * p2_exclude
  if pe = 1 then some 1 else qdivOpt (po - pe) (1 - pe)

/-- Hard-coded exclusion-reason table of lines 32–42 (with the
`other_reasons` filler "to reach 60 total"). -/
def title_abstract_exclusions : List (String × ℕ) :=
  [("duplicate_methodologies", 10), ("insufficient_deep_learning", 10),
   ("preliminary_results", 8), ("no_spatial_resolution", 7),
   ("non_cardiac_focus", 6), ("insufficient_methodology", 6),
   ("small_sample_sizes", 4), ("theoretical_only", 4), ("other_reasons", 5)]

/-- Top-level `main()` of `prisma_study_methodology.py` (lines 543–586)
at the granularity of its fallible steps: the object construction and
flow generation are pure, then `export_study_selection_data` performs
file writes and the flowchart is written with `open(...).write` — none
of it inside a `try` block, so a raised exception propagates. -/
def methodology_main (exportData writeFlowchart : Except PyExc Unit) :
    Except PyExc Unit := do
  exportData
  writeFlowchart

end Methodology

namespace Selection

/-!
Embedding of `scripts/prisma_study_selection.py`.

A dataframe row becomes a `Study` record; the global Mersenne Twister
becomes an abstract step function `g : ℕ → ℕ` applied to an explicit
state, each call to a `random` routine consuming one step.
-/

/-- One synthetic publication record, with the columns generated by
`_generate_synthetic_studies` that later phases read. -/
structure Study where
  idx : ℕ
  year : ℕ
  journal : String
  has_gnn : Bool
  has_rnn : Bool
  has_attention : Bool
  spatial_omics : Bool
  cardiac_focus : Bool
  full_text_available : Bool
  peer_reviewed : Bool
  language : String
  publication_type : String
  methodology_detail : String
  sample_size : ℕ
  has_spatial_resolution : Bool
  has_empirical_data : Bool
deriving Repr, DecidableEq

/-- Hand-coded target count `self.initial_records` (line 51). -/
def initial_records : ℕ := 462

/-- Hand-coded target count `self.final_included` (line 54). -/
def final_included : ℕ := 88

/-- The `self.title_abstract_exclusions` of lines 57–66: eight reasons, no
`other_reasons` filler. -/
def titleAbstractExclusions : List (String × ℕ) :=
  [("duplicate_methodologies", 10), ("insufficient_deep_learning", 10),
   ("preliminary_results", 8), ("no_spatial_resolution", 7),
   ("non_cardiac_focus", 6), ("insufficient_methodology", 6),
   ("small_sample_sizes", 4), ("theoretical_only", 4)]

/-- The `random.choice([True, False])`: one generator step, even ↦ `true`. -/
def drawBool (g : ℕ → ℕ) (s : ℕ) : ℕ × Bool :=
  (g s, g s % 2 == 0)

/-- The `random.choices([True, False], weights=[w/100, 1-w/100])`: one
generator step, `true` with weight `w` percent. -/
def drawWeightedBool (g : ℕ → ℕ) (s : ℕ) (w : ℕ) : ℕ × Bool :=
  (g s, decide (g s % 100 < w))

/-- A draw reduced modulo `m` (used for `randint` and list choices). -/
def drawMod (g : ℕ → ℕ) (s : ℕ) (m : ℕ) : ℕ × ℕ :=
  (g s, g s % m)

/-- The biased/unbiased boolean attribute pattern of lines 93–109:
weighted draw for the high-quality prefix, fair draw otherwise. -/
def hqBool (g : ℕ → ℕ) (s : ℕ) (hq : Bool) (w : ℕ) : ℕ × Bool :=
  if hq then drawWeightedBool g s w else drawBool g s

/-- Journal list of lines 89–92. -/
def journals : List String :=
  ["Nature Biotechnology", "Cell", "Science", "Nature Methods",
   "Bioinformatics", "Nature Communications", "PLOS ONE"]

/-- Publication-type list of lines 101–105. -/
def pubTypes : List String :=
  ["research_article", "conference_abstract", "letter", "editorial"]

/-- One loop iteration of `_generate_synthetic_studies` (lines 80–111):
the study with index `i`, drawing each attribute in source order;
`is_high_quality = i < final_included + 50`. -/
def genStudy (g : ℕ → ℕ) (s : ℕ) (i : ℕ) : ℕ × Study :=
  let hq := decide (i < final_included + 50)
  let dYear := drawMod g s 7
  let dJournal := drawMod g dYear.1 journals.length
  let dGnn := hqBool g dJournal.1 hq 70
  let dRnn := hqBool g dGnn.1 hq 60
  let dAtt := hqBool g dRnn.1 hq 80
  let dSpa := hqBool g dAtt.1 hq 90
  let dCar := hqBool g dSpa.1 hq 85
  let dFul := hqBool g dCar.1 hq 95
  let dPeer := hqBool g dFul.1 hq 90
  let dLang := hqBool g dPeer.1 hq 95
  let dPub := drawMod g dLang.1 100
  let pubType :=
    if hq then
      if dPub.2 < 80 then "research_article"
      else if dPub.2 < 90 then "conference_abstract"
      else if dPub.2 < 95 then "letter"
      else "editorial"
    else pubTypes.getD (dPub.2 % 4) "research_article"
  let dMeth := hqBool g dPub.1 hq 80
  let dSize := drawMod g dMeth.1 991
  let dRes := hqBool g dSize.1 hq 90
  let dEmp := hqBool g dRes.1 hq 85
  (dEmp.1,
   { idx := i
     year := 2019 + dYear.2
     journal := journals.getD dJournal.2 "PLOS ONE"
     has_gnn := dGnn.2
     has_rnn := dRnn.2
     has_attention := dAtt.2
     spatial_omics := dSpa.2
     cardiac_focus := dCar.2
     full_text_available := dFul.2
     peer_reviewed := dPeer.2
     language := if dLang.2 then "English" else "Non-English"
     publication_type := pubType
     methodology_detail := if dMeth.2 then "sufficient" else "insufficient"
     sample_size := 10 + dSize.2
     has_spatial_resolution := dRes.2
     has_empirical_data := dEmp.2 })

/-- Generate `fuel` studies starting at index `i`, threading the
generator state. -/
def genStudies (g : ℕ → ℕ) : ℕ → ℕ → ℕ → ℕ × List Study
  | s, _, 0 => (s, [])
  | s, i, fuel + 1 =>
    let r := genStudy g s i
    let rest := genStudies g r.1 (i + 1) fuel
    (rest.1, r.2 :: rest.2)

/-- The `_generate_synthetic_studies`: `initial_records` studies in index
order. -/
def generateSyntheticStudies (g : ℕ → ℕ) (s : ℕ) : ℕ × List Study :=
  genStudies g s 0 initial_records

/-- The attributes of `PRISMAStudySelection.__init__` (lines 50–69) that
the selection phases read. -/
structure SelState where
  initial_records : ℕ
  title_abstract_excluded : ℕ
  full_text_excluded : ℕ
  final_included : ℕ
  title_abstract_exclusions : List (String × ℕ)
  studies_df : List Study
deriving Repr

/-- The `PRISMAStudySelection(random_seed)`: `random.seed(random_seed)`
deterministically resets the generator state (modelled as the state being
the seed itself), then the synthetic dataframe is generated; returns the
object state and the generator state left behind. -/
def initSelection (g : ℕ → ℕ) (random_seed : ℕ) : SelState × ℕ :=
  let r := generateSyntheticStudies g random_seed
  ({ initial_records := initial_records
     title_abstract_excluded := 60
     full_text_excluded := 314
     final_included := final_included
     title_abstract_exclusions := titleAbstractExclusions
     studies_df := r.2 }, r.1)

/-- The combined inclusion mask of `apply_inclusion_criteria`
(lines 115–143). -/
def includeMask (st : Study) : Bool :=
  (st.has_gnn || st.has_rnn || st.has_attention) &&
  st.spatial_omics &&
  st.cardiac_focus &&
  (st.peer_reviewed && (st.language == "English") &&
   (decide (2019 ≤ st.year) && decide (st.year ≤ 2025)) &&
   st.full_text_available)

/-- The `apply_inclusion_criteria`: keep the rows satisfying the mask. -/
def applyInclusionCriteria (df : List Study) : List Study :=
  df.filter includeMask

/-- The first-matching exclusion reason of `apply_exclusion_criteria`
(lines 151–168), `none` when the study is kept. -/
def exclusionReason (st : Study) : Option String :=
  if st.publication_type == "conference_abstract" ||
     st.publication_type == "letter" ||
     st.publication_type == "editorial" then
    some "conference_abstracts_letters_editorials"
  else if !st.has_spatial_resolution then some "bulk_transcriptomics_only"
  else if !(st.has_gnn || st.has_rnn || st.has_attention) then
    some "insufficient_deep_learning"
  else if !st.cardiac_focus then some "non_cardiac_tissue"
  else if st.methodology_detail == "insufficient" then
    some "insufficient_methodology"
  else if !st.has_empirical_data then some "theoretical_only"
  else if st.sample_size < 50 then some "small_sample_sizes"
  else none

/-- One row step of `apply_exclusion_criteria`: either record the reason
or keep the study. -/
def exclStep (acc : List Study × List (String × ℕ)) (st : Study) :
    List Study × List (String × ℕ) :=
  match exclusionReason st with
  | some r => (acc.1, bumpKeyBy acc.2 r 1)
  | none => (acc.1 ++ [st], acc.2)

/-- The `apply_exclusion_criteria`: returns the kept studies and the
per-reason exclusion counts in first-encounter order. -/
def applyExclusionCriteria (df : List Study) :
    List Study × List (String × ℕ) :=
  df.foldl exclStep ([], [])

/-- The `df.sample(n=k)` followed by `df.drop(sampled)`: one generator step
chooses which `k` distinct rows leave; modelled as a rotation by the
draw followed by dropping `k` rows, so exactly `k` rows of the input are
removed. -/
def sampleDrop (g : ℕ → ℕ) (s : ℕ) (l : List Study) (k : ℕ) :
    ℕ × List Study :=
  (g s, (l.rotate (g s % (l.length + 1))).drop k)

/-- The `title_abstract_screening` (lines 181–214): apply the inclusion
criteria, then walk the hand-coded reason table, randomly removing
`count` studies for each reason that still fits
(`len(remaining) >= count`); returns the generator state, the rows
remaining for full-text review, and the applied exclusion counts. -/
def titleAbstractScreening (self : SelState) (g : ℕ → ℕ) (s : ℕ) :
    ℕ × List Study × List (String × ℕ) :=
  let eligible := applyInclusionCriteria self.studies_df
  self.title_abstract_exclusions.foldl
    (fun acc rc =>
      if rc.2 ≤ acc.2.1.length then
        let dropped := sampleDrop g acc.1 acc.2.1 rc.2
        (dropped.1, dropped.2, acc.2.2 ++ [rc])
      else acc)
    (s, eligible, [])

/-- The `full_text_screening` (lines 216–249): apply the exclusion criteria;
when more than `self.final_included` studies survive, randomly drop the
surplus and book it under `methodological_overlap`. -/
def fullTextScreening (self : SelState) (g : ℕ → ℕ) (s : ℕ)
    (df : List Study) : ℕ × List Study × List (String × ℕ) :=
  let ir := applyExclusionCriteria df
  if self.final_included < ir.1.length then
    let k := ir.1.length - self.final_included
    let dropped := sampleDrop g s ir.1 k
    (dropped.1, dropped.2, bumpKeyBy ir.2 "methodological_overlap" k)
  else (s, ir.1, ir.2)

/-- The value of `random.uniform(0.75, 0.95)`: one generator step mapped
affinely into the interval. -/
def uniformVal (g : ℕ → ℕ) (s : ℕ) : ℚ :=
  3/4 + ((g s % 1001 : ℕ) : ℚ) / 5000

/-- The `calculate_inter_rater_agreement` (lines 251–255): the method reads
nothing from `self`; it returns `round(random.uniform(0.75, 0.95), 3)`. -/
def calculate_inter_rater_agreement (_self : SelState) (g : ℕ → ℕ)
    (s : ℕ) : ℚ :=
  pyRound3 (uniformVal g s)

/-- The interpretation chosen on line 291:
`"Substantial agreement" if kappa > 0.8 else "Moderate agreement"`. -/
def agreementLevel (kappa : ℚ) : String :=
  if 4/5 < kappa then "Substantial agreement" else "Moderate agreement"

/-- Occurrence counts of each value in a list, in first-encounter order
(`value_counts` at the fidelity the claims need). -/
def countValues [BEq α] (l : List α) : List (α × ℕ) :=
  l.foldl (fun m x => bumpKeyBy m x 1) []

/-- Insertion into a count-descending table. -/
def insertCountDesc (p : String × ℕ) :
    List (String × ℕ) → List (String × ℕ)
  | [] => [p]
  | q :: rest => if q.2 < p.2 then p :: q :: rest else q :: insertCountDesc p rest

/-- Sort a count table by count, largest first. -/
def sortCountDesc (l : List (String × ℕ)) : List (String × ℕ) :=
  l.foldr insertCountDesc []

/-- Insertion into an ascending list of naturals. -/
def insertNatAsc (x : ℕ) : List ℕ → List ℕ
  | [] => [x]
  | y :: rest => if x ≤ y then x :: y :: rest else y :: insertNatAsc x rest

/-- Ascending insertion sort on naturals. -/
def sortNatAsc (l : List ℕ) : List ℕ :=
  l.foldr insertNatAsc []

/-- Median of a list of naturals as pandas computes it: middle element,
or the average of the two middle elements. -/
def medianNat (l : List ℕ) : ℚ :=
  let srt := sortNatAsc l
  if srt.length % 2 = 1 then ((srt.getD (srt.length / 2) 0 : ℕ) : ℚ)
  else (((srt.getD (srt.length / 2 - 1) 0 + srt.getD (srt.length / 2) 0 : ℕ) : ℚ)) / 2

/-- Least element of a list of naturals (0 for the empty list). -/
def minNat : List ℕ → ℕ
  | [] => 0
  | x :: r => r.foldl Nat.min x

/-- Greatest element of a list of naturals (0 for the empty list). -/
def maxNat : List ℕ → ℕ
  | [] => 0
  | x :: r => r.foldl Nat.max x

/-- Number of `true` entries (a boolean column's `.sum()`). -/
def countTrue (l : List Bool) : ℕ :=
  (l.filter id).length

/-- The `study_characteristics` dictionary of
`_analyze_included_studies` (lines 313–344). -/
structure Characteristics where
  total_studies : ℕ
  year_distribution : List (ℕ × ℕ)
  journal_distribution : List (String × ℕ)
  gnn_studies : ℕ
  rnn_studies : ℕ
  attention_studies : ℕ
  spatial_omics_studies : ℕ
  sample_mean : ℚ
  sample_median : ℚ
  sample_min : ℕ
  sample_max : ℕ
deriving Repr

/-- The `_analyze_included_studies`: empty dictionary (here `none`) for an
empty frame, otherwise the distributions and sample-size statistics. -/
def analyzeIncludedStudies (df : List Study) : Option Characteristics :=
  if df.length = 0 then none
  else
    let sizes := df.map Study.sample_size
    some
      { total_studies := df.length
        year_distribution := countValues (df.map Study.year)
        journal_distribution := (sortCountDesc (countValues (df.map Study.journal))).take 5
        gnn_studies := countTrue (df.map Study.has_gnn)
        rnn_studies := countTrue (df.map Study.has_rnn)
        attention_studies := countTrue (df.map Study.has_attention)
        spatial_omics_studies := countTrue (df.map Study.spatial_omics)
        sample_mean := ((sizes.sum : ℕ) : ℚ) / df.length
        sample_median := medianNat sizes
        sample_min := minNat sizes
        sample_max := maxNat sizes }

/-- The numeric and tabular content of the dictionary built by
`generate_prisma_flow_data` (lines 274–306), field names following the
nested keys. -/
structure FlowData where
  initial_records : ℕ
  eligible_for_screening : ℕ
  ta_excluded : ℕ
  ta_exclusion_reasons : List (String × ℕ)
  remaining : ℕ
  cohens_kappa : ℚ
  agreement_interp : String
  assessed : ℕ
  ft_excluded : ℕ
  ft_exclusion_reasons : List (String × ℕ)
  included : ℕ
  final_synthesis : ℕ
  study_characteristics : Option Characteristics
deriving Repr

/-- The `generate_prisma_flow_data` for an object freshly constructed with
`random_seed`: the two screening phases, the kappa draw, and the
dictionary assembly of lines 274–306. -/
def generatePrismaFlowData (g : ℕ → ℕ) (random_seed : ℕ) : FlowData :=
  let ini := initSelection g random_seed
  let self := ini.1
  let tas := titleAbstractScreening self g ini.2
  let afterTA := tas.2.1
  let taCounts := tas.2.2
  let fts := fullTextScreening self g tas.1 afterTA
  let finalIncl := fts.2.1
  let ftCounts := fts.2.2
  let kappa := calculate_inter_rater_agreement self g fts.1
  { initial_records := self.initial_records
    eligible_for_screening := afterTA.length + sumVals taCounts
    ta_excluded := sumVals taCounts
    ta_exclusion_reasons := taCounts
    remaining := afterTA.length
    cohens_kappa := kappa
    agreement_interp := agreementLevel kappa
    assessed := afterTA.length
    ft_excluded := afterTA.length - finalIncl.length
    ft_exclusion_reasons := ftCounts
    included := finalIncl.length
    final_synthesis := finalIncl.length
    study_characteristics := analyzeIncludedStudies finalIncl }

end Selection

namespace Config

/-- The `STUDY_SELECTION_CONFIG["title_abstract_exclusions"]` from
`scripts/prisma_config.py` (lines 72–83): ten reasons. -/
def title_abstract_exclusions : List (String × ℕ) :=
  [("duplicate_methodologies", 10), ("insufficient_deep_learning", 10),
   ("preliminary_results", 8), ("no_spatial_resolution", 7),
   ("non_cardiac_focus", 6), ("insufficient_methodology", 6),
   ("small_sample_sizes", 4), ("theoretical_only", 4),
   ("language_barriers", 3), ("publication_type_mismatch", 3)]

/-- The `STUDY_SELECTION_CONFIG["target_numbers"]["title_abstract_excluded"]`. -/
def title_abstract_excluded : ℕ := 60

end Config

namespace CsvDisplay

/-!
Embedding of `read_csv_display.py`.
-/

/-- A loaded dataframe: header columns and data rows. -/
structure Dataframe where
  cols : List String
  rows : List (List String)
deriving Repr

/-- The `os.path.basename`, splitting on the path separator. -/
def basename (p : String) : String :=
  (p.splitOn "/").getLastD p

/-- An 80-character separator line. -/
def sepLine : String :=
  String.mk (List.replicate 80 '=')

/-- A row rendered for display (the pandas `to_string` output is
abstracted to a plain join; only the count lines matter to the claims). -/
def renderRow (r : List String) : String :=
  String.intercalate " " r

/-- The console lines printed by `read_and_display_csv` (lines 15–103)
as far as the claims reach: the file-missing early return, then the
banner, the row/column counts of the loaded frame, the column list and
the first five data rows.  Later statistics lines are pandas renderings
appended after these and are not modelled line by line. -/
def read_and_display_output (file_path : String) (load : Option Dataframe) :
    List String :=
  match load with
  | none => ["Error: File '" ++ file_path ++ "' not found!"]
  | some df =>
    "Reading CSV file..." ::
    sepLine ::
    ("CSV FILE ANALYSIS: " ++ basename file_path) ::
    sepLine ::
    ("Number of rows: " ++ toString df.rows.length) ::
    ("Number of columns: " ++ toString df.cols.length) ::
    "Column names:" ::
    (df.cols.map (fun c => "  " ++ c) ++
     ("FIRST 5 ROWS OF DATA:" :: (df.rows.take 5).map renderRow))

/-- The exception behaviour of `read_and_display_csv` (lines 15–110):
the entire body sits inside `try`, and `except Exception` prints and
falls through, so the call always returns normally. -/
def read_and_display_result (body : Except PyExc Unit) : Except PyExc Unit :=
  match body with
  | Except.ok _ => Except.ok ()
  | Except.error _ => Except.ok ()

end CsvDisplay

namespace FixCsv

/-!
Exception structure of `scripts/fix_csv_formatting.py`.
-/

/-- The `create_properly_formatted_csv` (lines 11–137) at the granularity of
its fallible steps: the initial `pd.read_csv` and the `to_csv` exports
run outside any `try`; the Excel export is guarded only against
`ImportError` (retrying after a pip install, itself unguarded); the
verification loop wraps each read in `try/except Exception` and never
raises. -/
def create_properly_formatted_csv (readOrig csvExports excelExport
    pipAndRetry : Except PyExc Unit) : Except PyExc Unit := do
  readOrig
  csvExports
  match excelExport with
  | Except.error PyExc.importError => pipAndRetry
  | Except.error e => Except.error e
  | Except.ok _ => Except.ok ()

/-- The `display_csv_structure` (lines 139–179): its whole body is inside
`try/except Exception`, so it always returns normally. -/
def display_csv_structure (body : Except PyExc Unit) : Except PyExc Unit :=
  match body with
  | Except.ok _ => Except.ok ()
  | Except.error _ => Except.ok ()

/-- The `main()` of `fix_csv_formatting.py` (lines 181–198): calls the
creator then the analyzer, with no `try` of its own. -/
def fix_csv_main (readOrig csvExports excelExport pipAndRetry
    structBody : Except PyExc Unit) : Except PyExc Unit := do
  create_properly_formatted_csv readOrig csvExports excelExport pipAndRetry
  display_csv_structure structBody

end FixCsv

/-!
Helper lemmas.
-/

lemma roundHalfEven_intCast (k : ℤ) : roundHalfEven (k : ℚ) = k := by
  unfold roundHalfEven
  rw [Int.floor_intCast]
  norm_num

lemma roundHalfEven_mem {q : ℚ} {a b : ℤ} (h1 : (a : ℚ) ≤ q) (h2 : q ≤ (b : ℚ)) :
    a ≤ roundHalfEven q ∧ roundHalfEven q ≤ b := by
  simp only [roundHalfEven]
  have hfa : a ≤ ⌊q⌋ := Int.le_floor.mpr h1
  have hfb : ⌊q⌋ ≤ b := by
    have h := Int.floor_le_floor h2
    rwa [Int.floor_intCast] at h
  have hkey : ¬ (q - (⌊q⌋ : ℚ) < 1/2) → ⌊q⌋ + 1 ≤ b := by
    intro hge
    push_neg at hge
    have hcast : (⌊q⌋ : ℚ) < (b : ℚ) := by linarith
    have : ⌊q⌋ < b := by exact_mod_cast hcast
    omega
  split_ifs with hlt hgt hev
  · exact ⟨hfa, hfb⟩
  · exact ⟨by omega, hkey hlt⟩
  · exact ⟨hfa, hfb⟩
  · exact ⟨by omega, hkey hlt⟩

lemma pyRound3_int_div (k : ℤ) : pyRound3 ((k : ℚ) / 1000) = (k : ℚ) / 1000 := by
  unfold pyRound3
  have h : ((k : ℚ) / 1000) * 1000 = (k : ℚ) := by field_simp
  rw [h, roundHalfEven_intCast]

lemma pyRound3_mem {q : ℚ} {a b : ℤ} (h1 : (a : ℚ) / 1000 ≤ q) (h2 : q ≤ (b : ℚ) / 1000) :
    (a : ℚ) / 1000 ≤ pyRound3 q ∧ pyRound3 q ≤ (b : ℚ) / 1000 := by
  have hm : (a : ℚ) ≤ q * 1000 := by linarith
  have hM : q * 1000 ≤ (b : ℚ) := by linarith
  obtain ⟨l, u⟩ := roundHalfEven_mem hm hM
  unfold pyRound3
  constructor
  · have : (a : ℚ) ≤ ((roundHalfEven (q * 1000) : ℤ) : ℚ) := by exact_mod_cast l
    linarith
  · have : ((roundHalfEven (q * 1000) : ℤ) : ℚ) ≤ (b : ℚ) := by exact_mod_cast u
    linarith

lemma landisKochInterp_eq_spec (k : ℚ) :
    Methodology.landisKochInterp k = Methodology.landisBandSpec k := by
  unfold Methodology.landisKochInterp Methodology.landisBandSpec
  split_ifs <;> first | rfl | linarith

lemma uniformVal_bounds (g : ℕ → ℕ) (s : ℕ) :
    3/4 ≤ Selection.uniformVal g s ∧ Selection.uniformVal g s ≤ 19/20 := by
  unfold Selection.uniformVal
  have h1 : g s % 1001 ≤ 1000 := by omega
  have h2 : (0 : ℚ) ≤ ((g s % 1001 : ℕ) : ℚ) := Nat.cast_nonneg _
  have h3 : ((g s % 1001 : ℕ) : ℚ) ≤ 1000 := by exact_mod_cast h1
  constructor <;> linarith

lemma cohensKappaRaw_symm (m j : ℕ) (h : 0 < m + j) :
    Methodology.cohensKappaRaw m j j m = ((m : ℚ) - j) / ((m : ℚ) + j) := by
  have hmj : (0 : ℚ) < (m : ℚ) + j := by exact_mod_cast h
  have hn : ((m : ℚ) + j + j + m) ≠ 0 := ne_of_gt (by linarith)
  simp only [Methodology.cohensKappaRaw]
  have hpe : ((m : ℚ) + j) / ((m : ℚ) + j + j + m) * (((m : ℚ) + j) / ((m : ℚ) + j + j + m)) +
      ((j : ℚ) + m) / ((m : ℚ) + j + j + m) * (((j : ℚ) + m) / ((m : ℚ) + j + j + m)) = 1/2 := by
    field_simp
    ring
  rw [hpe]
  rw [if_neg (by norm_num : ¬ ((1 : ℚ)/2 = 1))]
  have hsum : (m : ℚ) + j + j + m = 2 * ((m : ℚ) + j) := by ring
  rw [hsum]
  field_simp
  ring

lemma foldl_exclStep_length (df : List Selection.Study) :
    ∀ acc : List Selection.Study × List (String × ℕ),
      ((df.foldl Selection.exclStep acc).1).length ≤ acc.1.length + df.length := by
  induction df with
  | nil => intro acc; simp
  | cons st rest ih =>
    intro acc
    rw [List.foldl_cons]
    refine (ih _).trans ?_
    cases hr : Selection.exclusionReason st <;>
      simp [Selection.exclStep, hr, List.length_append]
    all_goals omega

lemma applyExclusionCriteria_length (df : List Selection.Study) :
    (Selection.applyExclusionCriteria df).1.length ≤ df.length := by
  simpa using foldl_exclStep_length df ([], [])

lemma sampleDrop_length (g : ℕ → ℕ) (s : ℕ) (l : List Selection.Study) (k : ℕ) :
    ((Selection.sampleDrop g s l k).2).length = l.length - k := by
  simp [Selection.sampleDrop, List.length_drop, List.length_rotate]

lemma fullTextScreening_length (self : Selection.SelState) (g : ℕ → ℕ) (s : ℕ)
    (df : List Selection.Study) :
    ((Selection.fullTextScreening self g s df).2.1).length =
      min (Selection.applyExclusionCriteria df).1.length self.final_included := by
  simp only [Selection.fullTextScreening]
  split_ifs with h
  · rw [sampleDrop_length]
    omega
  · dsimp only
    omega

/-!
Claim theorems.
-/

/-- C1: for nonnegative confusion-matrix cells with positive total,
`calculate_cohens_kappa` returns the textbook Cohen's kappa
`(po - pe)/(1 - pe)` rounded to three decimals (with `1.0` when
`pe = 1`), paired with the Landis & Koch band of the computed kappa. -/
theorem cohens_kappa_matches_textbook (a b c d : ℕ) (_h : 0 < a + b + c + d) :
    Methodology.calculate_cohens_kappa a b c d =
      (pyRound3 (Methodology.kappaTextbook a b c d),
       Methodology.landisBandSpec (Methodology.kappaTextbook a b c d)) := by
  have hraw : Methodology.cohensKappaRaw a b c d = Methodology.kappaTextbook a b c d := rfl
  unfold Methodology.calculate_cohens_kappa
  rw [hraw, landisKochInterp_eq_spec]

/-- C1 witness: the theorem applied to the script's own confusion matrix
(75, 8, 9, 370). -/
theorem cohens_kappa_matches_textbook_witness :
    Methodology.calculate_cohens_kappa 75 8 9 370 =
      (pyRound3 (Methodology.kappaTextbook 75 8 9 370),
       Methodology.landisBandSpec (Methodology.kappaTextbook 75 8 9 370)) :=
  cohens_kappa_matches_textbook 75 8 9 370 (by norm_num)

/-- C9: with a positive total, every division in `calculate_cohens_kappa`
has a nonzero divisor — the checked variant returns `some` of the
unchecked kappa, the `pe == 1` branch covering the only case where
`1 - pe` could vanish. -/
theorem cohens_kappa_no_division_by_zero (a b c d : ℕ) (h : 0 < a + b + c + d) :
    Methodology.cohensKappaChecked a b c d =
      some (Methodology.cohensKappaRaw a b c d) := by
  have hq : (0 : ℚ) < (a : ℚ) + b + c + d := by exact_mod_cast h
  have hn : ((a : ℚ) + b + c + d) ≠ 0 := ne_of_gt hq
  simp only [Methodology.cohensKappaChecked, Methodology.cohensKappaRaw,
    Methodology.qdivOpt, hn, if_false, Option.bind_eq_bind, Option.some_bind]
  split_ifs with h1 h2
  · rfl
  · exact absurd (by linarith [sub_eq_zero.mp h2] : ((1 : ℚ) = _)) (fun hx => h1 hx.symm)
  · rfl

/-- C9 witness: the theorem applied to the script's own confusion matrix
(75, 8, 9, 370). -/
theorem cohens_kappa_no_division_by_zero_witness :
    Methodology.cohensKappaChecked 75 8 9 370 =
      some (Methodology.cohensKappaRaw 75 8 9 370) :=
  cohens_kappa_no_division_by_zero 75 8 9 370 (by norm_num)

/-- C5 counterexample: the per-reason title/abstract exclusion counts of
`prisma_study_selection.py` sum to 55, not to the claimed total of 60. -/
theorem selection_exclusions_sum_ne_sixty :
    sumVals Selection.titleAbstractExclusions ≠ 60 := by decide

/-- C5 amended: only the table in `prisma_study_methodology.py` sums to
`title_abstract_excluded = 60`; the table in `prisma_study_selection.py`
sums to 55 and the one in `prisma_config.py` to 61. -/
theorem title_abstract_exclusion_sums :
    sumVals Methodology.title_abstract_exclusions = 60 ∧
    sumVals Selection.titleAbstractExclusions = 55 ∧
    sumVals Config.title_abstract_exclusions = 61 := by decide

/-- C7: for every table that loads, `read_and_display_csv` prints
"Number of rows:" followed by exactly the loaded frame's row count and
"Number of columns:" followed by exactly its column count (as the fifth
and sixth output lines). -/
theorem row_column_counts_printed (p : String) (df : CsvDisplay.Dataframe) :
    (CsvDisplay.read_and_display_output p (some df)).get? 4 =
      some ("Number of rows: " ++ toString df.rows.length) ∧
    (CsvDisplay.read_and_display_output p (some df)).get? 5 =
      some ("Number of columns: " ++ toString df.cols.length) :=
  ⟨rfl, rfl⟩

/-- C3 counterexample: when the initial `pd.read_csv` of
`fix_csv_formatting.py` raises (the hard-coded input path is missing),
the exception propagates out of `main` — the script does not terminate
normally, contradicting the claim that every script catches and prints. -/
theorem fix_csv_exception_escapes_main :
    FixCsv.fix_csv_main (Except.error (PyExc.ioError "FileNotFoundError"))
        (Except.ok ()) (Except.ok ()) (Except.ok ()) (Except.ok ()) ≠
      Except.ok () :=
  fun h => Except.noConfusion h

/-- C3 amended: only `read_csv_display.py` wraps its body in a broad
catch-and-print handler and always returns normally; the `main`
functions of `fix_csv_formatting.py` and `prisma_study_methodology.py`
have no top-level handler, so an exception raised in their bodies
propagates out. -/
theorem top_level_exception_handling_per_script :
    (∀ body : Except PyExc Unit,
      CsvDisplay.read_and_display_result body = Except.ok ()) ∧
    (∀ (e : PyExc) (x1 x2 x3 x4 : Except PyExc Unit),
      FixCsv.fix_csv_main (Except.error e) x1 x2 x3 x4 = Except.error e) ∧
    (∀ (e : PyExc) (w : Except PyExc Unit),
      Methodology.methodology_main (Except.error e) w = Except.error e) := by
  refine ⟨?_, ?_, ?_⟩
  · intro body; cases body <;> rfl
  · intro e x1 x2 x3 x4; rfl
  · intro e w; rfl

/-- C2: every kappa value `calculate_inter_rater_agreement` can return
is the value of `calculate_cohens_kappa` on some 2x2 confusion matrix of
rater decisions — for any generator and state, a symmetric matrix
realizing the drawn value exactly exists. -/
theorem inter_rater_kappa_from_confusion_matrix (st : Selection.SelState)
    (g : ℕ → ℕ) (s : ℕ) :
    ∃ a b c d : ℕ,
      Selection.calculate_inter_rater_agreement st g s =
        (Methodology.calculate_cohens_kappa a b c d).1 := by
  obtain ⟨hu1, hu2⟩ := uniformVal_bounds g s
  have hm1 : (((750 : ℤ) : ℚ)) ≤ Selection.uniformVal g s * 1000 := by
    push_cast; linarith
  have hm2 : Selection.uniformVal g s * 1000 ≤ (((950 : ℤ) : ℚ)) := by
    push_cast; linarith
  obtain ⟨hk1, hk2⟩ := roundHalfEven_mem hm1 hm2
  set k : ℤ := roundHalfEven (Selection.uniformVal g s * 1000) with hkdef
  refine ⟨(1000 + k).toNat, (1000 - k).toNat, (1000 - k).toNat, (1000 + k).toNat, ?_⟩
  have hmc : (((1000 + k).toNat : ℕ) : ℚ) = 1000 + (k : ℚ) := by
    have h0 : (0 : ℤ) ≤ 1000 + k := by omega
    exact_mod_cast congrArg (Int.cast : ℤ → ℚ) (Int.toNat_of_nonneg h0)
  have hjc : (((1000 - k).toNat : ℕ) : ℚ) = 1000 - (k : ℚ) := by
    have h0 : (0 : ℤ) ≤ 1000 - k := by omega
    exact_mod_cast congrArg (Int.cast : ℤ → ℚ) (Int.toNat_of_nonneg h0)
  have hpos : 0 < (1000 + k).toNat + (1000 - k).toNat := by omega
  have hval : Methodology.cohensKappaRaw ((1000 + k).toNat) ((1000 - k).toNat)
      ((1000 - k).toNat) ((1000 + k).toNat) = (k : ℚ) / 1000 := by
    rw [cohensKappaRaw_symm _ _ hpos, hmc, hjc]
    rw [show (1000 : ℚ) + k + (1000 - k) = 2000 by ring,
      show (1000 : ℚ) + k - (1000 - k) = 2 * k by ring]
    field_simp
    ring
  have hlhs : Selection.calculate_inter_rater_agreement st g s = (k : ℚ) / 1000 := rfl
  have hrhs : (Methodology.calculate_cohens_kappa ((1000 + k).toNat)
      ((1000 - k).toNat) ((1000 - k).toNat) ((1000 + k).toNat)).1 = (k : ℚ) / 1000 := by
    show pyRound3 (Methodology.cohensKappaRaw _ _ _ _) = _
    rw [hval, pyRound3_int_div]
  rw [hlhs, hrhs]

/-- C8: `calculate_inter_rater_agreement` ignores the object state (and
hence the synthetic studies and every earlier screening decision), its
value always lies in [0.75, 0.95] and is a multiple of 1/1000 (rounded
to three decimals), and the reported level on line 291 is always either
"Substantial agreement" (kappa above 0.8) or "Moderate agreement". -/
theorem inter_rater_agreement_range_and_level
    (st₁ st₂ : Selection.SelState) (g : ℕ → ℕ) (s : ℕ) :
    Selection.calculate_inter_rater_agreement st₁ g s =
      Selection.calculate_inter_rater_agreement st₂ g s ∧
    3/4 ≤ Selection.calculate_inter_rater_agreement st₁ g s ∧
    Selection.calculate_inter_rater_agreement st₁ g s ≤ 19/20 ∧
    (∃ k : ℤ, Selection.calculate_inter_rater_agreement st₁ g s = (k : ℚ) / 1000) ∧
    (Selection.agreementLevel (Selection.calculate_inter_rater_agreement st₁ g s) =
        "Substantial agreement" ∨
     Selection.agreementLevel (Selection.calculate_inter_rater_agreement st₁ g s) =
        "Moderate agreement") := by
  obtain ⟨hu1, hu2⟩ := uniformVal_bounds g s
  have hb := @pyRound3_mem (Selection.uniformVal g s) 750 950
    (by push_cast; linarith) (by push_cast; linarith)
  have hb1 : (3 : ℚ)/4 ≤ pyRound3 (Selection.uniformVal g s) := by
    have := hb.1; norm_num at this ⊢; linarith
  have hb2 : pyRound3 (Selection.uniformVal g s) ≤ (19 : ℚ)/20 := by
    have := hb.2; norm_num at this ⊢; linarith
  refine ⟨rfl, hb1, hb2,
    ⟨roundHalfEven (Selection.uniformVal g s * 1000), rfl⟩, ?_⟩
  unfold Selection.agreementLevel
  split_ifs with h
  · exact Or.inl rfl
  · exact Or.inr rfl

set_option maxRecDepth 10000 in
/-- C4 counterexample: running the whole simulated flow with an explicit
generator (the successor function) and seed 42 reports 50 studies in the
final synthesis, not the hand-coded target of 88 — `full_text_screening`
only downsamples a surplus and returns fewer when fewer survive. -/
theorem full_text_screening_misses_target :
    (Selection.generatePrismaFlowData (fun n => n + 1) 42).final_synthesis ≠ 88 := by
  decide

/-- C4 amended: `full_text_screening` returns exactly
`min(survivors, final_included)` studies — exactly `final_included` when
more than `final_included` survive the exclusion criteria, and exactly
the survivors (possibly fewer than `final_included`) otherwise, never
more than `final_included`. -/
theorem full_text_screening_count_min (self : Selection.SelState) (g : ℕ → ℕ)
    (s : ℕ) (df : List Selection.Study) :
    ((Selection.fullTextScreening self g s df).2.1).length =
      min (Selection.applyExclusionCriteria df).1.length self.final_included ∧
    ((Selection.fullTextScreening self g s df).2.1).length ≤ self.final_included := by
  have h := fullTextScreening_length self g s df
  exact ⟨h, by omega⟩

/-- C6: the simulation is deterministic — two instances constructed with
the same generator and the same random seed produce identical flow data:
the same kappa, the same per-reason exclusion counts, the same
remaining/assessed/included counts, the same included-study
characteristics, and indeed equal dictionaries. -/
theorem prisma_flow_deterministic (g : ℕ → ℕ) (s₁ s₂ : ℕ) (h : s₁ = s₂) :
    (Selection.generatePrismaFlowData g s₁).cohens_kappa =
      (Selection.generatePrismaFlowData g s₂).cohens_kappa ∧
    (Selection.generatePrismaFlowData g s₁).ta_exclusion_reasons =
      (Selection.generatePrismaFlowData g s₂).ta_exclusion_reasons ∧
    (Selection.generatePrismaFlowData g s₁).ft_exclusion_reasons =
      (Selection.generatePrismaFlowData g s₂).ft_exclusion_reasons ∧
    (Selection.generatePrismaFlowData g s₁).remaining =
      (Selection.generatePrismaFlowData g s₂).remaining ∧
    (Selection.generatePrismaFlowData g s₁).assessed =
      (Selection.generatePrismaFlowData g s₂).assessed ∧
    (Selection.generatePrismaFlowData g s₁).included =
      (Selection.generatePrismaFlowData g s₂).included ∧
    (Selection.generatePrismaFlowData g s₁).study_characteristics =
      (Selection.generatePrismaFlowData g s₂).study_characteristics ∧
    Selection.generatePrismaFlowData g s₁ = Selection.generatePrismaFlowData g s₂ := by
  subst h
  exact ⟨rfl, rfl, rfl, rfl, rfl, rfl, rfl, rfl⟩

/-- C6 witness: the theorem applied at the successor generator and the
script's own seed 42. -/
theorem prisma_flow_deterministic_witness :
    (Selection.generatePrismaFlowData (fun n => n + 1) 42).cohens_kappa =
      (Selection.generatePrismaFlowData (fun n => n + 1) 42).cohens_kappa ∧
    (Selection.generatePrismaFlowData (fun n => n + 1) 42).ta_exclusion_reasons =
      (Selection.generatePrismaFlowData (fun n => n + 1) 42).ta_exclusion_reasons ∧
    (Selection.generatePrismaFlowData (fun n => n + 1) 42).ft_exclusion_reasons =
      (Selection.generatePrismaFlowData (fun n => n + 1) 42).ft_exclusion_reasons ∧
    (Selection.generatePrismaFlowData (fun n => n + 1) 42).remaining =
      (Selection.generatePrismaFlowData (fun n => n + 1) 42).remaining ∧
    (Selection.generatePrismaFlowData (fun n => n + 1) 42).assessed =
      (Selection.generatePrismaFlowData (fun n => n + 1) 42).assessed ∧
    (Selection.generatePrismaFlowData (fun n => n + 1) 42).included =
      (Selection.generatePrismaFlowData (fun n => n + 1) 42).included ∧
    (Selection.generatePrismaFlowData (fun n => n + 1) 42).study_characteristics =
      (Selection.generatePrismaFlowData (fun n => n + 1) 42).study_characteristics ∧
    Selection.generatePrismaFlowData (fun n => n + 1) 42 =
      Selection.generatePrismaFlowData (fun n => n + 1) 42 :=
  prisma_flow_deterministic (fun n => n + 1) 42 42 rfl

/-- C10: every flow dictionary conserves counts — in the title/abstract
phase `eligible_for_screening = excluded + remaining`, in the full-text
phase `assessed = excluded + included`, and `assessed` equals the
previous phase's `remaining`. -/
theorem prisma_flow_count_conservation (g : ℕ → ℕ) (seed : ℕ) :
    (Selection.generatePrismaFlowData g seed).eligible_for_screening =
      (Selection.generatePrismaFlowData g seed).ta_excluded +
        (Selection.generatePrismaFlowData g seed).remaining ∧
    (Selection.generatePrismaFlowData g seed).assessed =
      (Selection.generatePrismaFlowData g seed).ft_excluded +
        (Selection.generatePrismaFlowData g seed).included ∧
    (Selection.generatePrismaFlowData g seed).assessed =
      (Selection.generatePrismaFlowData g seed).remaining := by
  simp only [Selection.generatePrismaFlowData]
  set ini := Selection.initSelection g seed with hini
  set tas := Selection.titleAbstractScreening ini.1 g ini.2 with htas
  set fts := Selection.fullTextScreening ini.1 g tas.1 tas.2.1 with hfts
  have h1 : fts.2.1.length =
      min (Selection.applyExclusionCriteria tas.2.1).1.length ini.1.final_included := by
    rw [hfts]; exact fullTextScreening_length ini.1 g tas.1 tas.2.1
  have h2 : (Selection.applyExclusionCriteria tas.2.1).1.length ≤ tas.2.1.length :=
    applyExclusionCriteria_length tas.2.1
  refine ⟨Nat.add_comm _ _, ?_, trivial⟩
  omega
